import Mathlib

/-!
# Verification of the page_craft session / pending-operation core

A shallow embedding of the state-tracking core of `bot/bot.py` and of the
pure page-extraction logic of `utils/pdf_utils.py`, together with theorems
settling the specification claims about them.

Modelling conventions:
* A PDF document is abstracted to the list of its pages (`List α`); the
  conversion library's byte-level output is out of scope.
* Python dicts with optional keys become structures with `Option` fields.
* Python exceptions become `Option`/`Except` results.
* The per-user slices `user_files[user_id]` / `pending_files[user_id]` of the
  two module-level dicts are modelled as one `UserState`; every handler in
  the source touches only the calling user's slice.
* Temporary directory names from `tempfile.mkdtemp()` are opaque fresh
  handles; they are collapsed to the constant prefix "tmp/" and the act of
  creating one is recorded as an explicit `Event.mkTemp` in the handler's
  event trace.
* `Char.isAlphanum` / `Char.isWhitespace` stand in for Python's
  Unicode-aware `str.isalnum` / whitespace stripping; the claims under test
  only involve ASCII data.
-/

namespace PageCraft

/-! ## Python string primitives

Core's `String.splitOn`, `String.toInt?`, `String.trim`, … are compiled
functions whose bodies do not reduce inside the kernel, so the few Python
string operations the source relies on are spelled out here over
`String.data`, structurally recursive and hence evaluable by `decide`. -/

/-- `s.split(sep)` for a one-character separator, over the character list. -/
def splitOnCh (c : Char) : List Char → List (List Char)
  | [] => [[]]
  | x :: xs =>
    let r := splitOnCh c xs
    if x == c then [] :: r
    else
      match r with
      | [] => [[x]]
      | g :: gs => (x :: g) :: gs

/-- Python `s.split(c)` for a one-character separator. -/
def pySplit (s : String) (c : Char) : List String :=
  (splitOnCh c s.data).map String.mk

def isPyDigit (c : Char) : Bool := '0' ≤ c && c ≤ '9'

def digitsToNat (cs : List Char) : Nat :=
  cs.foldl (fun acc c => acc * 10 + (c.toNat - '0'.toNat)) 0

/-- Python `s.strip()`: drop leading and trailing whitespace. -/
def pyStrip (s : String) : String :=
  String.mk (((s.data.dropWhile Char.isWhitespace).reverse.dropWhile
    Char.isWhitespace).reverse)

/-- Python `s.rstrip()`: drop trailing whitespace. -/
def pyRstrip (s : String) : String :=
  String.mk ((s.data.reverse.dropWhile Char.isWhitespace).reverse)

/-- Python `int(s)`: optional surrounding whitespace, an optional sign and
at least one ASCII digit (underscore grouping and non-ASCII digits are not
modelled); `none` is a `ValueError`. -/
def pyInt (s : String) : Option Int :=
  match (pyStrip s).data with
  | '-' :: ds =>
    if !ds.isEmpty && ds.all isPyDigit then some (-(digitsToNat ds : Int)) else none
  | '+' :: ds =>
    if !ds.isEmpty && ds.all isPyDigit then some (digitsToNat ds) else none
  | ds =>
    if !ds.isEmpty && ds.all isPyDigit then some (digitsToNat ds) else none

/-! ## utils/pdf_utils.py -/

/-- Python list indexing (`xs[i]`): a non-negative index counts from the
front, a negative one from the back; `none` models an `IndexError`. -/
def pyGet {α : Type} (xs : List α) (i : Int) : Option α :=
  if 0 ≤ i then xs.get? i.toNat
  else if 0 ≤ (xs.length : Int) + i then xs.get? ((xs.length : Int) + i).toNat
  else none

/-- Python `range(a, b)` over integers: `[a, a+1, ..., b-1]`. -/
def intRange (a b : Int) : List Int :=
  (List.range (b - a).toNat).map (fun k : Nat => a + (k : Int))

/-- The page-range parsing phase of `split_pdf` (pdf_utils.py:47-54):
`"a-b"` is split on `'-'` and both parts go through `int`, otherwise the
whole string goes through `int`; both bounds are shifted to 0-based.
`none` models a `ValueError` (non-integer part, or a split that does not
unpack into exactly two parts). -/
def parse_page_range (page_range : String) : Option (Int × Int) :=
  if page_range.data.contains '-' then
    match (pySplit page_range '-').mapM pyInt with
    | some [a, b] => some (a - 1, b - 1)
    | _ => none
  else
    match pyInt page_range with
    | some n => some (n - 1, n - 1)
    | none => none

/-- The extraction loop of `split_pdf` (pdf_utils.py:56-59): for each
`page_num` in the given order, pages with `page_num < len(reader.pages)`
are appended, the rest are skipped; `none` models an `IndexError` from a
too-negative index reaching `reader.pages[page_num]`. -/
def extract_pages {α : Type} (pages : List α) : List Int → Option (List α)
  | [] => some []
  | i :: rest =>
    if i < (pages.length : Int) then
      match pyGet pages i, extract_pages pages rest with
      | some p, some ps => some (p :: ps)
      | _, _ => none
    else extract_pages pages rest

/-- `split_pdf(pdf_file, page_range)` from utils/pdf_utils.py:32-64, over
the page list of the input document; the result is the page list of the
output document, `none` modelling a raised exception. -/
def split_pdf {α : Type} (pages : List α) (page_range : String) : Option (List α) :=
  match parse_page_range page_range with
  | none => none
  | some (s, e) => extract_pages pages (intRange s (e + 1))

/-! ## Module layout and the lazy import (bot.py:68-96)

`from utils.pdf_utils import n₁, …, nₖ` first executes the package
initializer `utils/__init__.py` (itself a from-import against
`utils.pdf_utils`) and then binds the requested names; it raises
`ImportError` as soon as some requested name is not defined at the top
level of `utils/pdf_utils.py`. -/

/-- The names defined at the top level of `utils/pdf_utils.py`. -/
def pdf_utils_defs : List String :=
  ["merge_pdfs", "split_pdf", "pdf_to_images", "create_zip_from_images",
   "word_to_pdf"]

/-- The names `utils/__init__.py` imports from `.pdf_utils`. -/
def utils_init_imports : List String :=
  ["merge_pdfs", "split_pdf", "pdf_to_images", "create_zip_from_images",
   "image_to_pdf", "images_to_pdf"]

/-- The names `lazy_import_pdf_utils` imports from `utils.pdf_utils`
(bot.py:81). -/
def bot_lazy_imports : List String :=
  ["merge_pdfs", "split_pdf", "pdf_to_images", "create_zip_from_images",
   "image_to_pdf"]

/-- A from-import against `utils.pdf_utils` succeeds iff every requested
name is defined there. -/
def importFromPdfUtils (names : List String) : Bool :=
  names.all (fun n => pdf_utils_defs.contains n)

/-- `lazy_import_pdf_utils` (bot.py:68-96): `some ()` models the tuple of
five callables, `none` the all-`None` tuple returned when the import (the
package initializer's, or the bot's own) raises. -/
def lazy_import_pdf_utils : Option Unit :=
  if importFromPdfUtils utils_init_imports && importFromPdfUtils bot_lazy_imports
  then some () else none

/-! ## Data model (bot.py:27-32)

`user_files[user_id]` holds a list of dicts with optional keys
(`message_id` only for PDF uploads and delivered results, `type`/`size`
only for image uploads); `pending_files[user_id]` holds at most one dict.
`UserState` is the slice of those two module-level dicts belonging to one
user — every handler only touches the calling user's slice. -/

/-- One record of `user_files[user_id]`. -/
structure FileEntry where
  name : String
  path : String
  message_id : Option Nat := none
  ftype : Option String := none
  size : Option Nat := none
deriving Repr, DecidableEq, BEq

/-- The record stored in `pending_files[user_id]` by `ask_for_filename`;
`message_to_reply` is the message handle the result will be delivered in
reply to. -/
structure PendingFile where
  file_path : String
  file_type : String
  operation_info : String
  message_to_reply : Nat
deriving Repr, DecidableEq

/-- One user's slice of the two module-level stores. -/
structure UserState where
  files : List FileEntry
  pending : Option PendingFile
deriving Repr, DecidableEq

/-- The conversion-library calls a handler can make. -/
inductive ConvOp where
  | mergePdfs (paths : List String) (out : String)
  | splitPdf (path : String) (range : String) (out : String)
  | pdfToImages (path : String) (outDir : String)
  | createZip (zipPath : String)
  | imageToPdf (path : String) (out : String)
deriving Repr, DecidableEq

/-- Observable actions of a handler, in program order: outbound texts,
status edits, temporary-directory creation, conversion-library calls,
document delivery and file deletion. -/
inductive Event where
  | reply (text : String)
  | edit (text : String)
  | mkTemp
  | convert (op : ConvOp)
  | sendDocument (filename : String) (caption : String)
  | removeFile (path : String)
deriving Repr, DecidableEq

/-- `True` on conversion-library calls. -/
def Event.isConvert : Event → Bool
  | .convert _ => true
  | _ => false

/-- A trace that never calls the conversion library. -/
def noConvert (evs : List Event) : Bool :=
  evs.all (fun e => !e.isConvert)

/-! ## Limits (bot.py:31-33) -/

def MAX_FILES_PER_USER : Nat := 5
def MAX_FILE_SIZE_MB : Nat := 10

/-! ## find_replied_pdf (bot.py:220-235)

`replyDoc` is the id of the replied-to message when the trigger replies to
a document message, `none` otherwise.  The lookup uses
`file_info.get('message_id')`, so records without the key (image uploads)
compare `None == replied_message_id` and never match. -/

def find_replied_pdf (files : List FileEntry) (replyDoc : Option Nat) :
    Option FileEntry :=
  match replyDoc with
  | none => none
  | some rid => files.find? (fun f => f.message_id == some rid)

/-! ## Filename negotiation (bot.py:308-452) -/

/-- The character class kept by the sanitizer (bot.py:344):
`c.isalnum() or c in (' ', '-', '_')`. -/
def sanitizeKeep (c : Char) : Bool :=
  c.isAlphanum || c == ' ' || c == '-' || c == '_'

/-- bot.py:344: `"".join(c for c in filename if …)​.rstrip()`. -/
def sanitizeJoin (filename : String) : String :=
  pyRstrip (String.mk (filename.data.filter sanitizeKeep))

/-- bot.py:341-346: the text is first `.strip()`-ed, then sanitized, with
fallback `"document"` when nothing is left. -/
def sanitizedBaseName (text : String) : String :=
  let filename := sanitizeJoin (pyStrip text)
  if filename == "" then "document" else filename

/-- Python `file_type.split('.')[-1]`. -/
def extOf (file_type : String) : String := (pySplit file_type '.').getLastD ""

def askFilenamePrompt (operation_info file_type : String) : String :=
  s!"✅ {operation_info}\n\n📝 **Please enter a filename for your {file_type}:**\n(Just type the name, extension will be added automatically)\n\nExample: `my_document` → `my_document.{extOf file_type}`"

/-- ask_for_filename (bot.py:308-327): unconditionally overwrites the
user's pending slot (`pending_files[user_id] = {...}`) and prompts for a
name. `msgId` is the triggering command message (`update.message`). -/
def ask_for_filename (st : UserState)
    (file_path file_type operation_info : String) (msgId : Nat) :
    UserState × List Event :=
  ({ st with pending := some ⟨file_path, file_type, operation_info, msgId⟩ },
   [.reply (askFilenamePrompt operation_info file_type)])

def noPendingRenameMsg : String :=
  "❌ No pending file to rename. Please try the operation again."

def sendingMsg (fn : String) : String := s!"📤 Sending {fn}..."

def sentCaption (fn op : String) : String := s!"📄 **{fn}**\n{op}"

def fileSentMsg (fn : String) : String :=
  s!"✅ File sent as `{fn}`! You can now reply to it with commands."

def sendErrorMsg (e : String) : String := s!"❌ Error sending file: {e}"

/-- The extension step of handle_filename_input (bot.py:349-354). -/
def finalFilename (file_type base : String) : String :=
  if file_type == "pdf" then base ++ ".pdf"
  else if file_type == "zip" then base ++ ".zip"
  else base

/-- handle_filename_input (bot.py:329-401). `sendOutcome` is the
transport's answer to `reply_document`: the fresh message id assigned to
the delivered document, or the text of the exception raised. The copy kept
for later reply lookup lives in a fresh temp dir (collapsed to "tmp/"). -/
def handle_filename_input (st : UserState) (text : String)
    (sendOutcome : Except String Nat) : UserState × List Event :=
  let ack := Event.reply "⚡ Processing..."
  match st.pending with
  | none => (st, [ack, .reply noPendingRenameMsg])
  | some info =>
    let filename := sanitizedBaseName text
    let final_filename := finalFilename info.file_type filename
    match sendOutcome with
    | .ok mid =>
      let entry : FileEntry :=
        { name := final_filename, path := "tmp/" ++ final_filename,
          message_id := some mid }
      ({ files := st.files ++ [entry], pending := none },
       [ack, .reply (sendingMsg final_filename),
        .sendDocument final_filename
          (sentCaption final_filename info.operation_info),
        .mkTemp, .removeFile info.file_path, .edit (fileSentMsg final_filename)])
    | .error e =>
      ({ st with pending := none },
       [ack, .reply (sendingMsg final_filename), .reply (sendErrorMsg e)])

def noPendingCancelMsg : String := "❌ No pending file to cancel."

def defaultSentMsg : String :=
  "✅ File sent with default name! You can now reply to it with commands."

/-- cancel_rename (bot.py:403-452): deliver under
`"document.{file_type.split('.')[-1]}"`, register the result, clear the
pending slot. -/
def cancel_rename (st : UserState) (sendOutcome : Except String Nat) :
    UserState × List Event :=
  match st.pending with
  | none => (st, [.reply noPendingCancelMsg])
  | some info =>
    let default_filename := "document." ++ extOf info.file_type
    match sendOutcome with
    | .ok mid =>
      let entry : FileEntry :=
        { name := default_filename, path := "tmp/" ++ default_filename,
          message_id := some mid }
      ({ files := st.files ++ [entry], pending := none },
       [.sendDocument default_filename
          (sentCaption default_filename info.operation_info),
        .mkTemp, .removeFile info.file_path, .reply defaultSentMsg])
    | .error e =>
      ({ st with pending := none }, [.reply (sendErrorMsg e)])

/-! ## Upload handlers (bot.py:499-635, 684-737) -/

def limitReachedMsg : String :=
  "⚠️ File limit reached (" ++ toString MAX_FILES_PER_USER ++
    "). Use /clear to remove old files."

/-- The numbered listing `"{i}. {name}\n"` per entry, 1-based. -/
def numberedLines (files : List FileEntry) : String :=
  String.join (files.enum.map (fun p => s!"{p.1 + 1}. {p.2.name}\n"))

def pdfReceivedMsg (file_name : String) (files : List FileEntry) : String :=
  s!"✅ PDF received: {file_name}\n\n📁 Your uploaded PDFs:\n{numberedLines files}\n📋 Use commands:\n• /merge [numbers] - e.g., /merge 1,3,2\n• /split [number] [pages] - e.g., /split 2 5-8\n• /to_images [number] - e.g., /to_images 1\n• /list - Show all uploaded files\n• /clear - Clear all files\n\n💡 **NEW: Reply Feature!**\n• Reply with: /merge\n• Reply with: /split pages\n• Reply with: /to_images"

/-- The SECOND definition of `handle_document` (bot.py:684-737) — the one
bound at call time, shadowing the first and carrying none of its limit
checks. Only `file_name.lower().endswith('.pdf')` is tested; the download
is modelled as succeeding. -/
def handle_document (st : UserState) (file_name : String) (msgId : Nat) :
    UserState × List Event :=
  if !(".pdf".data.isSuffixOf (file_name.data.map Char.toLower)) then
    (st, [.reply "Please send only PDF files!"])
  else
    let entry : FileEntry :=
      { name := file_name, path := "tmp/" ++ file_name, message_id := some msgId }
    let files2 := st.files ++ [entry]
    ({ st with files := files2 },
     [.mkTemp, .reply (pdfReceivedMsg file_name files2)])

/-- One-decimal rendering of bytes as MB for the size message of the first
`handle_document`; Python formats the float with `:.1f`, modelled here by
truncation — no claim inspects this text. -/
def fileTooLargeMsg (file_size : Nat) : String :=
  let t := file_size * 10 / (1024 * 1024)
  "❌ File too large (" ++ toString (t / 10) ++ "." ++ toString (t % 10) ++
    "MB). Max size: " ++ toString MAX_FILE_SIZE_MB ++ "MB"

def pdfUploadedMsg (file_number : Nat) (file_name : String) : String :=
  s!"📄 PDF uploaded as file #{file_number}: {file_name}"

/-- The FIRST definition of `handle_document` (bot.py:499-555), the one
with the size and count limit checks; dead code — shadowed by the second
definition. `memOk`/`memOk2` model the two `check_memory_limit()` calls
(before, and after the download). -/
def handle_document_v1 (st : UserState) (memOk : Bool) (mime : String)
    (file_size : Nat) (file_name : String) (msgId : Nat) (memOk2 : Bool) :
    UserState × List Event :=
  if !memOk then (st, [.reply "⚠️ Service busy. Please try again in a moment."])
  else if !(mime == "application/pdf") then
    (st, [.reply "❌ Please send PDF files only."])
  else if file_size > MAX_FILE_SIZE_MB * 1024 * 1024 then
    (st, [.reply (fileTooLargeMsg file_size)])
  else if st.files.length ≥ MAX_FILES_PER_USER then
    (st, [.reply limitReachedMsg])
  else if !memOk2 then
    (st, [.mkTemp, .removeFile ("tmp/" ++ file_name),
          .reply "⚠️ Memory limit reached. File removed."])
  else
    let entry : FileEntry :=
      { name := file_name, path := "tmp/" ++ file_name, message_id := some msgId }
    ({ st with files := st.files ++ [entry] },
     [.mkTemp, .reply (pdfUploadedMsg (st.files.length + 1) file_name)])

def imageOnlyMsg : String := "❌ Please send image files only."

def processingImageMsg : String := "� Processing image..."

def imageErrorMsg (e : String) : String := s!"❌ Error processing image: {e}"

def imageConvErrorMsg (e : String) : String := s!"❌ Error converting image: {e}"

/-- `len([f for f in user_files[user_id] if f['type'] == 'image'])`
(bot.py:598): the direct `['type']` access raises `KeyError` (modelled
`none`) as soon as a record without the key — a PDF upload or a delivered
result — is reached. -/
def imageCountAll (files : List FileEntry) : Option Nat :=
  if files.all (fun f => f.ftype.isSome) then
    some (files.filter (fun f => f.ftype == some "image")).length
  else none

def imageReceivedMsg (file_name : String) (n : Nat) : String :=
  s!"✅ Image received: {file_name}\n\n📁 Your uploaded images: {n}\n\n📋 Options:\n• Upload more images and use /combine_images\n• Use /convert_image to convert this image to PDF\n• Use /list to see all files"

/-- handle_image_document (bot.py:557-608); the download succeeds. The
record — stored WITHOUT a `message_id` key — is appended before the
success text is computed, so the `KeyError` path (mixed registry) still
keeps the new record and edits the two error texts of bot.py:607-608. -/
def handle_image_document (st : UserState) (mime : Option String)
    (file_name : String) (file_size : Nat) : UserState × List Event :=
  let isImage := match mime with
    | some m => "image/".data.isPrefixOf m.data
    | none => false
  if !isImage then (st, [.reply imageOnlyMsg])
  else if st.files.length ≥ MAX_FILES_PER_USER then
    (st, [.reply limitReachedMsg])
  else
    let entry : FileEntry :=
      { name := file_name, path := "tmp/" ++ file_name,
        ftype := some "image", size := some file_size }
    let files2 := st.files ++ [entry]
    match imageCountAll files2 with
    | some n =>
      ({ st with files := files2 },
       [.reply processingImageMsg, .mkTemp, .edit (imageReceivedMsg file_name n)])
    | none =>
      ({ st with files := files2 },
       [.reply processingImageMsg, .mkTemp,
        .edit (imageErrorMsg "\x27type\x27"),
        .edit (imageConvErrorMsg "\x27type\x27")])

def unsupportedTypeMsg : String :=
  "❌ Unsupported file type!\n\n📄 **Supported formats:**\n• PDF files (.pdf)\n• Image files (.jpg, .png, .jpeg, .gif, .bmp)\n\n💡 Upload one of these file types to get started!"

/-- handle_any_document (bot.py:610-635): mime-based routing. The name
`handle_document` resolves, at call time, to the second definition. -/
def handle_any_document (st : UserState) (mime : Option String)
    (file_name : String) (file_size : Nat) (msgId : Nat) :
    UserState × List Event :=
  match mime with
  | some m =>
    if m == "application/pdf" then handle_document st file_name msgId
    else if "image/".data.isPrefixOf m.data then
      handle_image_document st mime file_name file_size
    else (st, [.reply unsupportedTypeMsg])
  | none => (st, [.reply unsupportedTypeMsg])

/-! ## Command handlers (bot.py:739-1226) -/

/-- Python `sep.join(xs)`. -/
def joinWith (sep : String) : List String → String
  | [] => ""
  | [x] => x
  | x :: xs => x ++ sep ++ joinWith sep xs

/-- `[int(x.strip()) for x in s.split(',')]` (bot.py:779, 870): the list,
or the `ValueError` text of the first non-integer token. -/
def parseIndices (s : String) : Except String (List Int) :=
  (pySplit s ',').mapM (fun x =>
    match pyInt (pyStrip x) with
    | some n => Except.ok n
    | none =>
      Except.error
        ("invalid literal for int() with base 10: \x27" ++ pyStrip x ++ "\x27"))

/-- The selection loop of merge_command (bot.py:783-789): walk the 1-based
indices in order, aborting with the first out-of-range one. -/
def selectByIndices (files : List FileEntry) :
    List Int → Except Int (List FileEntry)
  | [] => .ok []
  | n :: rest =>
    if h : 1 ≤ n ∧ n ≤ (files.length : Int) then
      match selectByIndices files rest with
      | .ok sel => .ok (files.get ⟨(n - 1).toNat, by omega⟩ :: sel)
      | .error m => .error m
    else .error n

def serviceBusyMsg : String := "⚠️ Service busy. Please try again in a moment."

def uploadBeforeMergingMsg : String := "Please upload PDF files before merging."

def noOtherFilesMsg : String := "❌ No other files available to merge with this PDF!"

/-- Reply-mode menu of merge_command (bot.py:763-767). -/
def mergeReplyMenu (replied : FileEntry) (other_files : List FileEntry) : String :=
  s!"📋 **Merge with {replied.name}**\n\nChoose files to merge:\n\n" ++
    numberedLines other_files ++
    s!"\n💡 Use: `/merge_with 1,2,3` to merge selected files with {replied.name}"

def invalidFormatMsg : String := "❌ Invalid format. Use: /merge 1,2,3"

def fileNotExistMsg (n : Int) : String :=
  "❌ File #" ++ toString n ++ " doesn\x27t exist. Use /list to see available files."

def needTwoFilesMsg : String := "Need at least 2 files to merge!"

def mergingStatus (n : Nat) : String := s!"🔄 Merging {n} PDF files..."

def pdfUtilsUnavailableMsg : String := "❌ PDF utilities not available."

def mergeCompletedMsg : String := "✅ Merge completed!"

def mergeSummary (file_names : List String) : String :=
  s!"Successfully merged {file_names.length} PDF files!\n\nMerged files:\n" ++
    joinWith "\n" (file_names.map (fun name => "• " ++ name))

/-- The executor step shared verbatim by merge_command (bot.py:803-826) and
merge_with_command (bot.py:889-913): status, temp dir, lazy import —
`None` check — merge call, completion status, filename negotiation. -/
def mergeExecutor (st : UserState) (selected_files : List FileEntry)
    (msgId : Nat) : UserState × List Event :=
  let ev0 := [Event.reply (mergingStatus selected_files.length), Event.mkTemp]
  match lazy_import_pdf_utils with
  | none => (st, ev0 ++ [.reply pdfUtilsUnavailableMsg])
  | some _ =>
    let ev1 := ev0 ++
      [Event.convert (.mergePdfs (selected_files.map (·.path)) "tmp/merged.pdf"),
       Event.edit mergeCompletedMsg]
    let (st2, ev2) := ask_for_filename st "tmp/merged.pdf" "pdf"
      (mergeSummary (selected_files.map (·.name))) msgId
    (st2, ev1 ++ ev2)

/-- merge_command (bot.py:739-836). `memOk` models `check_memory_limit()`,
`replyDoc` the replied-to document message id, `args` `context.args`. -/
def merge_command (st : UserState) (memOk : Bool) (replyDoc : Option Nat)
    (args : List String) (msgId : Nat) : UserState × List Event :=
  if !memOk then (st, [.reply serviceBusyMsg])
  else if st.files.length == 0 then (st, [.reply uploadBeforeMergingMsg])
  else
    match find_replied_pdf st.files replyDoc with
    | some replied_pdf =>
      let other_files := st.files.filter (fun f => !(f == replied_pdf))
      if other_files.isEmpty then (st, [.reply noOtherFilesMsg])
      else (st, [.reply (mergeReplyMenu replied_pdf other_files)])
    | none =>
      let all_files := st.files
      let proceed := fun (selected_files : List FileEntry) =>
        if selected_files.length < 2 then (st, [Event.reply needTwoFilesMsg])
        else mergeExecutor st selected_files msgId
      match args with
      | arg0 :: _ =>
        match parseIndices arg0 with
        | .error _ => (st, [.reply invalidFormatMsg])
        | .ok file_numbers =>
          match selectByIndices all_files file_numbers with
          | .error num => (st, [.reply (fileNotExistMsg num)])
          | .ok selected_files => proceed selected_files
      | [] => proceed all_files

def uploadFirstMsg : String := "Please upload PDF files first."

/-- merge_with_command menu shown without a reply target (bot.py:850-854). -/
def mergeWithNoReplyMenu (files : List FileEntry) : String :=
  "🔗 **Available PDFs to merge:**\n\n" ++ numberedLines files ++
    "\n💡 Use: `/merge_with 1,2,3` to merge selected files\n💡 Or reply to a PDF and use `/merge_with 1,2` to merge with it"

/-- merge_with_command menu shown for a reply target without arguments
(bot.py:858-866): all files keep their 1-based registry position, the
replied one is skipped; the direct `['message_id']` access raises
`KeyError` (modelled `none`) on records without the key. -/
def mergeWithReplyMenu (replied : FileEntry) (files : List FileEntry) :
    Option String :=
  if files.all (fun f => f.message_id.isSome) then
    some (s!"🔗 **Merge \x27{replied.name}\x27 with:**\n\nAvailable files:\n" ++
      String.join (files.enum.filterMap (fun p =>
        if p.2.message_id == replied.message_id then none
        else some s!"{p.1 + 1}. {p.2.name}\n")) ++
      s!"\n💡 **Usage:** `/merge_with 1,2,3` (file numbers to merge with {replied.name})")
  else none

/-- The dispatcher-level error handler's user message (bot.py:1366), sent
when an exception escapes a handler. -/
def genericErrorMsg : String :=
  "❌ Sorry, something went wrong. Please try again later."

def mergeErrorMsg (e : String) : String := s!"❌ Error merging PDFs: {e}"

def needTwoMergeWithMsg : String :=
  "❌ You need at least 2 files to merge. Select more files."

inductive SelFailure where
  | badIndex (n : Int)
  | keyError
deriving Repr, DecidableEq

/-- The selection loop of merge_with_command (bot.py:875-884): walk the
1-based indices over the full registry, skipping the replied file, and
abort on the first out-of-range index; the direct `['message_id']`
accesses raise `KeyError` on records without the key. -/
def mergeWithSelect (files : List FileEntry) (replied : FileEntry) :
    List Int → Except SelFailure (List FileEntry)
  | [] => .ok []
  | n :: rest =>
    if h : 1 ≤ n ∧ n ≤ (files.length : Int) then
      let sf := files.get ⟨(n - 1).toNat, by omega⟩
      match sf.message_id, replied.message_id with
      | some a, some b =>
        match mergeWithSelect files replied rest with
        | .ok sel => .ok (if a != b then sf :: sel else sel)
        | .error err => .error err
      | _, _ => .error .keyError
    else .error (.badIndex n)

/-- merge_with_command (bot.py:838-916). Its whole argument-handling body
sits in one `try` whose `except` renders the exception text, so both the
`ValueError` of `int()` and the `KeyError` of `['message_id']` surface as
"❌ Error merging PDFs: …". -/
def merge_with_command (st : UserState) (replyDoc : Option Nat)
    (args : List String) (msgId : Nat) : UserState × List Event :=
  if st.files.length == 0 then (st, [.reply uploadFirstMsg])
  else
    match find_replied_pdf st.files replyDoc with
    | none => (st, [.reply (mergeWithNoReplyMenu st.files)])
    | some replied_pdf =>
      match args with
      | [] =>
        match mergeWithReplyMenu replied_pdf st.files with
        | some menu => (st, [.reply menu])
        | none => (st, [.reply genericErrorMsg])
      | arg0 :: _ =>
        match parseIndices arg0 with
        | .error e => (st, [.reply (mergeErrorMsg e)])
        | .ok file_numbers =>
          match mergeWithSelect st.files replied_pdf file_numbers with
          | .error .keyError => (st, [.reply (mergeErrorMsg "\x27message_id\x27")])
          | .error (.badIndex num) => (st, [.reply (fileNotExistMsg num)])
          | .ok added =>
            let selected_files := replied_pdf :: added
            if selected_files.length < 2 then (st, [.reply needTwoMergeWithMsg])
            else mergeExecutor st selected_files msgId

def uploadBeforeSplittingMsg : String := "Please upload a PDF file before splitting."

def splitReplyUsage (name : String) : String :=
  s!"📄 **Split {name}**\n\nPlease specify page range:\n• Reply with: `/split 5-8` (pages 5 to 8)\n• Reply with: `/split 3` (page 3 only)"

def splitUsageMsg : String :=
  "Please specify file number and page range.\n\nExamples:\n• /split 1 5-8 (split file #1, pages 5-8)\n• /split 2 3 (split file #2, page 3 only)\n\nUse /list to see your uploaded files.\n\n💡 **TIP**: Reply to any PDF with /split [pages]"

def splittingStatus (name : String) : String := s!"🔄 Splitting {name}..."

def invalidFileNumberMsg : String :=
  "❌ Invalid file number. Use /list to see your files."

def invalidFileNumberValueMsg : String :=
  "❌ Invalid file number. Please use a valid number from your file list."

def splitCompletedMsg : String := "✅ Split completed!"

def extractedInfo (page_range name : String) : String :=
  s!"Extracted pages {page_range} from {name}!"

/-- The executor step shared verbatim by both branches of split_command
(bot.py:944-967 and 1002-1025): status, temp dir, lazy import — `None`
check (a status edit) — split call, completion, filename negotiation. -/
def splitExecutor (st : UserState) (selected_file : FileEntry)
    (page_range : String) (msgId : Nat) : UserState × List Event :=
  let output_path := "tmp/split_" ++ selected_file.name
  let ev0 := [Event.reply (splittingStatus selected_file.name), Event.mkTemp]
  match lazy_import_pdf_utils with
  | none => (st, ev0 ++ [.edit pdfUtilsUnavailableMsg])
  | some _ =>
    let ev1 := ev0 ++
      [Event.convert (.splitPdf selected_file.path page_range output_path),
       Event.edit splitCompletedMsg]
    let (st2, ev2) := ask_for_filename st output_path "pdf"
      (extractedInfo page_range selected_file.name) msgId
    (st2, ev1 ++ ev2)

/-- split_command (bot.py:918-1037). No memory check in the source. -/
def split_command (st : UserState) (replyDoc : Option Nat) (args : List String)
    (msgId : Nat) : UserState × List Event :=
  if st.files.length == 0 then (st, [.reply uploadBeforeSplittingMsg])
  else
    match find_replied_pdf st.files replyDoc with
    | some replied_pdf =>
      match args with
      | [] => (st, [.reply (splitReplyUsage replied_pdf.name)])
      | _ => splitExecutor st replied_pdf (joinWith " " args) msgId
    | none =>
      if args.length < 2 then (st, [.reply splitUsageMsg])
      else
        match pyInt (args.headD "") with
        | none => (st, [.reply invalidFileNumberValueMsg])
        | some file_number =>
          let page_range := joinWith " " args.tail
          if h : file_number < 1 ∨ (st.files.length : Int) < file_number then
            (st, [.reply invalidFileNumberMsg])
          else
            splitExecutor st
              (st.files.get ⟨(file_number - 1).toNat, by omega⟩) page_range msgId

def serviceTempBusyMsg : String := "⚠️ Service temporarily busy. Please try again."

def noPdfsUploadedMsg : String := "❌ No PDFs uploaded. Please upload a PDF first."

/-- Python `s.replace(pat, rep)` for the non-empty pattern `p :: ps`. -/
def replaceAllNe (p : Char) (ps rep : List Char) : List Char → List Char
  | [] => []
  | c :: cs =>
    if (p :: ps).isPrefixOf (c :: cs) then
      rep ++ replaceAllNe p ps rep (cs.drop ps.length)
    else c :: replaceAllNe p ps rep cs
termination_by s => s.length
decreasing_by
  all_goals simp [List.length_drop]
  omega

/-- Python `s.replace(pat, rep)` (empty patterns do not occur here). -/
def pyReplaceStr (s pat rep : String) : String :=
  match pat.data with
  | [] => s
  | p :: ps => String.mk (replaceAllNe p ps rep.data s.data)

def convertedPagesInfo (n : Nat) (name : String) : String :=
  s!"Converted {n} pages from {name} to images!"

/-- The executor step shared by both branches of to_images_command
(bot.py:1056-1079 and 1102-1124): temp dir, lazy import — `None` check —
rasterize, zip, filename negotiation. `pageCount` abstracts how many
images the external rasterizer returns. -/
def toImagesExecutor (st : UserState) (selected_file : FileEntry)
    (pageCount : Nat) (msgId : Nat) : UserState × List Event :=
  let ev0 := [Event.mkTemp]
  match lazy_import_pdf_utils with
  | none => (st, ev0 ++ [.reply pdfUtilsUnavailableMsg])
  | some _ =>
    let zip_filename := "images_" ++ pyReplaceStr selected_file.name ".pdf" "" ++ ".zip"
    let zip_path := "tmp/" ++ zip_filename
    let ev1 := ev0 ++
      [Event.convert (.pdfToImages selected_file.path "tmp/images"),
       Event.convert (.createZip zip_path)]
    let (st2, ev2) := ask_for_filename st zip_path "zip"
      (convertedPagesInfo pageCount selected_file.name) msgId
    (st2, ev1 ++ ev2)

/-- to_images_command (bot.py:1039-1130). -/
def to_images_command (st : UserState) (memOk : Bool) (replyDoc : Option Nat)
    (args : List String) (pageCount : Nat) (msgId : Nat) :
    UserState × List Event :=
  if !memOk then (st, [.reply serviceTempBusyMsg])
  else
    match find_replied_pdf st.files replyDoc with
    | some replied_pdf => toImagesExecutor st replied_pdf pageCount msgId
    | none =>
      if h0 : st.files = [] then (st, [.reply noPdfsUploadedMsg])
      else
        match args with
        | a :: _ =>
          match pyInt a with
          | none => (st, [.reply invalidFileNumberMsg])
          | some file_number =>
            if h : file_number < 1 ∨ (st.files.length : Int) < file_number then
              (st, [.reply invalidFileNumberMsg])
            else
              toImagesExecutor st
                (st.files.get ⟨(file_number - 1).toNat, by omega⟩) pageCount msgId
        | [] => toImagesExecutor st (st.files.getLast h0) pageCount msgId

def noFilesUploadImageMsg : String :=
  "❌ No files uploaded. Please upload an image first."

def noImageFilesMsg : String :=
  "❌ No image files found. Please upload an image first."

def invalidImageNumberAvailMsg (n : Nat) : String :=
  s!"❌ Invalid image number. You have {n} images."

def invalidImageNumberMsg : String := "❌ Invalid image number."

def convertedImageInfo (name : String) : String :=
  s!"Converted image \x27{name}\x27 to PDF!"

/-- Python `s.rsplit('.', 1)[0]`: everything before the last dot, or the
whole string when there is none. -/
def rsplitBase (s : String) : String :=
  let parts := splitOnCh '.' s.data
  if parts.length ≤ 1 then s
  else String.mk (List.intercalate ['.'] parts.dropLast)

/-- The executor step of convert_image_command (bot.py:1163-1177): temp
dir, output name from `rsplit('.', 1)[0]`, lazy import — `None` check —
conversion, filename negotiation. -/
def convertImageExecutor (st : UserState) (selected_file : FileEntry)
    (msgId : Nat) : UserState × List Event :=
  let pdf_filename := rsplitBase selected_file.name ++ ".pdf"
  let pdf_file_path := "tmp/" ++ pdf_filename
  let ev0 := [Event.mkTemp]
  match lazy_import_pdf_utils with
  | none => (st, ev0 ++ [.reply pdfUtilsUnavailableMsg])
  | some _ =>
    let ev1 := ev0 ++ [Event.convert (.imageToPdf selected_file.path pdf_file_path)]
    let (st2, ev2) := ask_for_filename st pdf_file_path "pdf"
      (convertedImageInfo selected_file.name) msgId
    (st2, ev1 ++ ev2)

/-- convert_image_command (bot.py:1132-1182): operates on the image-typed
entries only, indexed within that sublist. -/
def convert_image_command (st : UserState) (memOk : Bool) (args : List String)
    (msgId : Nat) : UserState × List Event :=
  if !memOk then (st, [.reply serviceTempBusyMsg])
  else if st.files.length == 0 then (st, [.reply noFilesUploadImageMsg])
  else
    let image_files := st.files.filter (fun f => f.ftype == some "image")
    if h0 : image_files = [] then (st, [.reply noImageFilesMsg])
    else
      match args with
      | a :: _ =>
        match pyInt a with
        | none => (st, [.reply invalidImageNumberMsg])
        | some file_number =>
          if h : file_number < 1 ∨ (image_files.length : Int) < file_number then
            (st, [.reply (invalidImageNumberAvailMsg image_files.length)])
          else
            convertImageExecutor st
              (image_files.get ⟨(file_number - 1).toNat, by omega⟩) msgId
      | [] => convertImageExecutor st (image_files.getLast h0) msgId

/-! ## Sample data for concrete evaluations -/

def samplePdf (i : Nat) : FileEntry :=
  { name := "f" ++ toString i ++ ".pdf", path := "tmp/f" ++ toString i ++ ".pdf",
    message_id := some i }

def sampleImg : FileEntry :=
  { name := "i.png", path := "tmp/i.png", ftype := some "image", size := some 1000 }

/-- A registry already holding `MAX_FILES_PER_USER` entries. -/
def fullRegistry : List FileEntry :=
  [samplePdf 1, samplePdf 2, samplePdf 3, samplePdf 4, samplePdf 5]

/-! ## Basic reductions -/

lemma lazy_import_eq_none : lazy_import_pdf_utils = none := rfl

lemma mergeExecutor_eq (st : UserState) (sel : List FileEntry) (m : Nat) :
    mergeExecutor st sel m =
      (st, [.reply (mergingStatus sel.length), .mkTemp,
            .reply pdfUtilsUnavailableMsg]) := rfl

lemma splitExecutor_eq (st : UserState) (f : FileEntry) (pr : String) (m : Nat) :
    splitExecutor st f pr m =
      (st, [.reply (splittingStatus f.name), .mkTemp,
            .edit pdfUtilsUnavailableMsg]) := rfl

lemma toImagesExecutor_eq (st : UserState) (f : FileEntry) (pc m : Nat) :
    toImagesExecutor st f pc m =
      (st, [.mkTemp, .reply pdfUtilsUnavailableMsg]) := rfl

lemma convertImageExecutor_eq (st : UserState) (f : FileEntry) (m : Nat) :
    convertImageExecutor st f m =
      (st, [.mkTemp, .reply pdfUtilsUnavailableMsg]) := rfl

/-- C1: in this source tree `image_to_pdf` and `images_to_pdf` are missing
from `utils/pdf_utils.py`, so the lazy import always yields the all-`None`
tuple; consequently each of the four commands' executor steps replies
"❌ PDF utilities not available." (an edit, for split) and no invocation of
/merge, /merge_with, /split, /to_images or /convert_image ever calls the
conversion library. -/
theorem C1_lazy_import_always_fails :
    (pdf_utils_defs.contains "image_to_pdf" = false
      ∧ pdf_utils_defs.contains "images_to_pdf" = false
      ∧ lazy_import_pdf_utils = none)
    ∧ (∀ st sel m, mergeExecutor st sel m =
        (st, [.reply (mergingStatus sel.length), .mkTemp,
              .reply pdfUtilsUnavailableMsg]))
    ∧ (∀ st f pr m, splitExecutor st f pr m =
        (st, [.reply (splittingStatus f.name), .mkTemp,
              .edit pdfUtilsUnavailableMsg]))
    ∧ (∀ st f pc m, toImagesExecutor st f pc m =
        (st, [.mkTemp, .reply pdfUtilsUnavailableMsg]))
    ∧ (∀ st f m, convertImageExecutor st f m =
        (st, [.mkTemp, .reply pdfUtilsUnavailableMsg]))
    ∧ (∀ st memOk replyDoc args m,
        noConvert (merge_command st memOk replyDoc args m).2 = true)
    ∧ (∀ st replyDoc args m,
        noConvert (merge_with_command st replyDoc args m).2 = true)
    ∧ (∀ st replyDoc args m,
        noConvert (split_command st replyDoc args m).2 = true)
    ∧ (∀ st memOk replyDoc args pc m,
        noConvert (to_images_command st memOk replyDoc args pc m).2 = true)
    ∧ (∀ st memOk args m,
        noConvert (convert_image_command st memOk args m).2 = true) := by
  refine ⟨⟨by decide, by decide, rfl⟩, mergeExecutor_eq, splitExecutor_eq,
    toImagesExecutor_eq, convertImageExecutor_eq, ?_, ?_, ?_, ?_, ?_⟩
  · intro st memOk replyDoc args m
    simp only [merge_command, mergeExecutor_eq]
    repeat' split
    all_goals rfl
  · intro st replyDoc args m
    simp only [merge_with_command, mergeExecutor_eq]
    repeat' split
    all_goals rfl
  · intro st replyDoc args m
    simp only [split_command, splitExecutor_eq]
    repeat' split
    all_goals rfl
  · intro st memOk replyDoc args pc m
    simp only [to_images_command, toImagesExecutor_eq]
    repeat' split
    all_goals rfl
  · intro st memOk args m
    simp only [convert_image_command, convertImageExecutor_eq]
    repeat' split
    all_goals rfl

/-- C2: the upload-limit claim against the code as bound at call time. At
a registry already holding `MAX_FILES_PER_USER` entries, a further PDF
upload is routed to the SECOND `handle_document` definition (the one that
shadows the first), which appends a sixth entry and never emits the limit
message; it has no size check at all, and `handle_image_document`
stores an oversize image without a size check too. The shadowed FIRST
definition would have enforced both limits, and the image handler does
enforce the count cap — evidence that the claim matches the intent and the
shadowing is the slip. -/
theorem C2_limits_not_enforced_at_runtime :
    (handle_any_document ⟨fullRegistry, none⟩ (some "application/pdf")
        "sixth.pdf" (11 * 1024 * 1024) 99
      = handle_document ⟨fullRegistry, none⟩ "sixth.pdf" 99)
    ∧ ((handle_document ⟨fullRegistry, none⟩ "sixth.pdf" 99).1.files.length
        = MAX_FILES_PER_USER + 1)
    ∧ ((handle_document ⟨fullRegistry, none⟩ "sixth.pdf" 99).2.all
        (fun e => !(e == .reply limitReachedMsg)) = true)
    ∧ (handle_document_v1 ⟨fullRegistry, none⟩ true "application/pdf"
        (11 * 1024 * 1024) "sixth.pdf" 99 true
      = (⟨fullRegistry, none⟩, [.reply (fileTooLargeMsg (11 * 1024 * 1024))]))
    ∧ (handle_document_v1 ⟨fullRegistry, none⟩ true "application/pdf"
        (5 * 1024 * 1024) "sixth.pdf" 99 true
      = (⟨fullRegistry, none⟩, [.reply limitReachedMsg]))
    ∧ (handle_image_document ⟨fullRegistry, none⟩ (some "image/png") "x.png" 3
      = (⟨fullRegistry, none⟩, [.reply limitReachedMsg]))
    ∧ ((handle_image_document ⟨[], none⟩ (some "image/png") "big.png"
        (11 * 1024 * 1024)).1.files.length = 1) := by
  refine ⟨rfl, by decide, by decide, by decide, by decide, by decide, by decide⟩

/-! ## Extraction lemmas for split_pdf -/

lemma pyGet_nonneg {α : Type} (xs : List α) (i : Int) (h : 0 ≤ i) :
    pyGet xs i = xs.get? i.toNat := by
  simp [pyGet, h]

lemma intRange_succ (s : Int) (n : Nat) :
    intRange s (s + ((n + 1 : Nat) : Int)) =
      s :: intRange (s + 1) (s + 1 + (n : Int)) := by
  unfold intRange
  rw [show (s + ((n + 1 : Nat) : Int) - s).toNat = n + 1 by omega,
      show (s + 1 + (n : Int) - (s + 1)).toNat = n by omega,
      List.range_succ_eq_map, List.map_cons, List.map_map]
  congr 1
  · simp
  · apply List.map_congr_left
    intro k _
    simp only [Function.comp]
    push_cast
    ring

/-- Extracting a contiguous non-negative integer range `[s, s+n)` from the
page list keeps exactly the in-bounds part, in order. -/
lemma extract_intRange {α : Type} (pages : List α) :
    ∀ (n : Nat) (s : Int), 0 ≤ s →
      extract_pages pages (intRange s (s + (n : Int))) =
        some ((pages.drop s.toNat).take n)
  | 0, s, _ => by
    unfold intRange
    rw [show s + ((0 : Nat) : Int) - s = 0 by omega]
    simp [extract_pages]
  | n + 1, s, hs => by
    rw [intRange_succ]
    unfold extract_pages
    by_cases hlt : s < (pages.length : Int)
    · rw [if_pos hlt, pyGet_nonneg _ _ hs]
      have hsn : s.toNat < pages.length := by omega
      rw [List.get?_eq_get hsn,
          extract_intRange pages n (s + 1) (by omega),
          show (s + 1).toNat = s.toNat + 1 by omega,
          List.drop_eq_getElem_cons hsn, List.take_succ_cons]
      rfl
    · rw [if_neg hlt, extract_intRange pages n (s + 1) (by omega),
          List.drop_eq_nil_of_le
            (show pages.length ≤ (s + 1).toNat by omega),
          List.drop_eq_nil_of_le (show pages.length ≤ s.toNat by omega)]
      simp

lemma extract_pages_cons {α : Type} (pages : List α) (i : Int)
    (rest : List Int) (p : α) (ps : List α) (h0 : 0 ≤ i)
    (hp : pages.get? i.toNat = some p)
    (hrest : extract_pages pages rest = some ps) :
    extract_pages pages (i :: rest) = some (p :: ps) := by
  have hl : i.toNat < pages.length := by
    rcases List.get?_eq_some.mp hp with ⟨h, _⟩
    exact h
  unfold extract_pages
  rw [if_pos (by omega : i < (pages.length : Int)), pyGet_nonneg _ _ h0, hp,
      hrest]

/-- C3: on any document with pages 5–8 present (in particular any document
of at least 8 pages), `split_pdf` with the range string "5-8" yields
exactly pages 5, 6, 7, 8 in original order; on any document with a third
page, "3" yields exactly page 3. Pages are identified by their 0-based
`get?` positions 4–7 and 2. -/
theorem C3_split_concrete_ranges {α : Type} (pages : List α) :
    (∀ p5 p6 p7 p8,
      pages.get? 4 = some p5 → pages.get? 5 = some p6 →
      pages.get? 6 = some p7 → pages.get? 7 = some p8 →
      split_pdf pages "5-8" = some [p5, p6, p7, p8])
    ∧ (∀ p3, pages.get? 2 = some p3 → split_pdf pages "3" = some [p3]) := by
  constructor
  · intro p5 p6 p7 p8 h5 h6 h7 h8
    simp only [split_pdf,
      show parse_page_range "5-8" = some (4, 7) from by decide]
    rw [show intRange 4 (7 + 1) = [4, 5, 6, 7] from by decide]
    exact extract_pages_cons _ 4 _ _ _ (by omega) h5
      (extract_pages_cons _ 5 _ _ _ (by omega) h6
        (extract_pages_cons _ 6 _ _ _ (by omega) h7
          (extract_pages_cons _ 7 _ _ _ (by omega) h8 rfl)))
  · intro p3 h3
    simp only [split_pdf,
      show parse_page_range "3" = some (2, 2) from by decide]
    rw [show intRange 2 (2 + 1) = [2] from by decide]
    exact extract_pages_cons _ 2 _ _ _ (by omega) h3 rfl

/-- Witness for C3 at a concrete 9-page document. -/
theorem C3_split_concrete_ranges_witness :
    split_pdf [10, 20, 30, 40, 50, 60, 70, 80, 90] "5-8"
      = some [50, 60, 70, 80]
    ∧ split_pdf [10, 20, 30, 40, 50, 60, 70, 80, 90] "3" = some [30] :=
  ⟨(C3_split_concrete_ranges [10, 20, 30, 40, 50, 60, 70, 80, 90]).1
      50 60 70 80 (by decide) (by decide) (by decide) (by decide),
   (C3_split_concrete_ranges [10, 20, 30, 40, 50, 60, 70, 80, 90]).2
      30 (by decide)⟩

/-- C4: for every page list and every well-formed range string — one that
parses to 0-based bounds `(s, e)` with `0 ≤ s` (a 1-based range) and
`s ≤ e` — `split_pdf` succeeds (never errors) and returns exactly the
in-bounds pages of the range, in original order: `drop`ping the first `s`
pages and `take`-ing at most `e + 1 - s` of the rest silently clips the
out-of-bounds tail (and yields `[]` when the whole range is past the
end). -/
theorem C4_split_skips_out_of_bounds {α : Type} (pages : List α)
    (r : String) (s e : Int) (hparse : parse_page_range r = some (s, e))
    (h0 : 0 ≤ s) (hse : s ≤ e) :
    split_pdf pages r = some ((pages.drop s.toNat).take (e + 1 - s).toNat) := by
  simp only [split_pdf, hparse]
  have h := extract_intRange pages (e + 1 - s).toNat s h0
  rw [show s + (((e + 1 - s).toNat : Nat) : Int) = e + 1 by omega] at h
  exact h

/-- Witness for C4: range "2-9" on a 3-page document clips to pages 2–3. -/
theorem C4_split_skips_out_of_bounds_witness :
    split_pdf [10, 20, 30] "2-9" = some [20, 30] := by
  have h := C4_split_skips_out_of_bounds [10, 20, 30] "2-9" 1 8
    (by decide) (by decide) (by decide)
  simpa using h

/-! ## The sanitization rule as the spec words it (§4.4, §8) -/

/-- Removing trailing whitespace, by direct recursion (keep a character if
anything non-whitespace follows it). -/
def dropTrailingWs : List Char → List Char
  | [] => []
  | c :: cs =>
    match dropTrailingWs cs with
    | [] => if c.isWhitespace then [] else [c]
    | r => c :: r

/-- "retain alphanumerics, space, hyphen, underscore; trim trailing
whitespace; fallback to a default base name if empty after sanitization" —
the spec's own description of sanitization, taken at its word: it is
applied directly to the supplied filename string, with no preliminary
`strip`. -/
def sanitizeSpec (s : String) : String :=
  let kept := s.data.filter sanitizeKeep
  let trimmed := String.mk (dropTrailingWs kept)
  if trimmed == "" then "document" else trimmed

lemma dropTrailingWs_eq (l : List Char) :
    dropTrailingWs l = (l.reverse.dropWhile Char.isWhitespace).reverse := by
  induction l with
  | nil => rfl
  | cons c cs ih =>
    show (match dropTrailingWs cs with
      | [] => if c.isWhitespace then [] else [c]
      | r => c :: r) = _
    rw [List.reverse_cons, List.dropWhile_append]
    rcases hr : dropTrailingWs cs with - | ⟨x, xs⟩
    · have he : (cs.reverse.dropWhile Char.isWhitespace).isEmpty = true := by
        rw [ih] at hr
        simp only [List.isEmpty_iff]
        rcases hd : cs.reverse.dropWhile Char.isWhitespace with - | ⟨y, ys⟩
        · rfl
        · rw [hd] at hr
          simp at hr
      rw [if_pos he]
      show _ = (List.dropWhile Char.isWhitespace [c]).reverse
      by_cases hc : c.isWhitespace
      · rw [if_pos hc]
        simp [List.dropWhile, hc]
      · rw [if_neg hc]
        simp [List.dropWhile, hc]
    · have heq : (cs.reverse.dropWhile Char.isWhitespace).reverse = x :: xs := by
        rw [← ih, hr]
      have hne : ¬((cs.reverse.dropWhile Char.isWhitespace).isEmpty = true) := by
        intro hcontra
        rw [List.isEmpty_iff] at hcontra
        rw [hcontra] at heq
        simp at heq
      rw [if_neg hne, List.reverse_append, heq]
      show c :: (x :: xs) = _
      simp

/-- C5 counterexample: on the supplied filename `" a"` (leading space) the
code produces `"a"` — the leading space, an explicitly retained character
that is not trailing whitespace, is dropped — while the claim's rule keeps
it. -/
theorem C5_counterexample :
    sanitizedBaseName " a" = "a" ∧ sanitizeSpec " a" = " a"
    ∧ sanitizedBaseName " a" ≠ sanitizeSpec " a" := by
  refine ⟨by decide, by decide, by decide⟩

/-- C5 amended: handle_filename_input first strips the supplied text of
leading and trailing whitespace (bot.py:341) and only then applies exactly
the claimed sanitization — keep alphanumeric/space/hyphen/underscore
characters, trim trailing whitespace, fall back to "document" — so that
`"a!b@c"` becomes `"abc"`, `"../../etc"` becomes `"etc"` and an
all-invalid input falls back to `"document"`. -/
theorem C5_amended_sanitize_after_strip :
    (∀ s, sanitizedBaseName s = sanitizeSpec (pyStrip s))
    ∧ sanitizedBaseName "a!b@c" = "abc"
    ∧ sanitizedBaseName "../../etc" = "etc"
    ∧ sanitizedBaseName "!!!" = "document" := by
  refine ⟨fun s => ?_, by decide, by decide, by decide⟩
  unfold sanitizedBaseName sanitizeSpec sanitizeJoin pyRstrip
  simp only [dropTrailingWs_eq]

lemma files_ne_nil_of_find {files : List FileEntry} {replyDoc : Option Nat}
    {replied : FileEntry} (h : find_replied_pdf files replyDoc = some replied) :
    files ≠ [] := by
  intro hnil
  subst hnil
  cases replyDoc <;> simp [find_replied_pdf] at h

/-- C6: every merge request that resolves to fewer than 2 files fails with
a cardinality error before any file I/O: the error reply is the only
event (no temp dir, no conversion call) and the state is returned
unchanged. Covered: bare /merge on an empty registry, bare /merge
resolving to a single file, an indexed /merge whose selection resolves to
fewer than 2 entries, and a reply-targeted /merge_with whose deduplicated
selection shrinks below 2. -/
theorem C6_merge_cardinality_guard :
    (∀ st replyDoc args m, st.files = [] →
      merge_command st true replyDoc args m =
        (st, [.reply uploadBeforeMergingMsg]))
    ∧ (∀ st replyDoc m, find_replied_pdf st.files replyDoc = none →
      st.files.length = 1 →
      merge_command st true replyDoc [] m = (st, [.reply needTwoFilesMsg]))
    ∧ (∀ st replyDoc arg0 rest m nums sel,
      find_replied_pdf st.files replyDoc = none →
      st.files ≠ [] →
      parseIndices arg0 = .ok nums →
      selectByIndices st.files nums = .ok sel →
      sel.length < 2 →
      merge_command st true replyDoc (arg0 :: rest) m =
        (st, [.reply needTwoFilesMsg]))
    ∧ (∀ st replyDoc arg0 rest m replied nums added,
      find_replied_pdf st.files replyDoc = some replied →
      parseIndices arg0 = .ok nums →
      mergeWithSelect st.files replied nums = .ok added →
      (replied :: added).length < 2 →
      merge_with_command st replyDoc (arg0 :: rest) m =
        (st, [.reply needTwoMergeWithMsg])) := by
  refine ⟨?_, ?_, ?_, ?_⟩
  · intro st replyDoc args m hfiles
    simp [merge_command, hfiles, find_replied_pdf]
  · intro st replyDoc m hfind hlen
    simp [merge_command, hfind, hlen]
  · intro st replyDoc arg0 rest m nums sel hfind hne hparse hsel hlt
    have h0 : (st.files.length == 0) = false := by
      cases hf : st.files with
      | nil => exact absurd hf hne
      | cons a l => rfl
    simp [merge_command, h0, hfind, hparse, hsel, hlt]
  · intro st replyDoc arg0 rest m replied nums added hfind hparse hsel hlt
    have hne := files_ne_nil_of_find hfind
    have h0 : (st.files.length == 0) = false := by
      cases hf : st.files with
      | nil => exact absurd hf hne
      | cons a l => rfl
    have hadded : added = [] := by
      simp only [List.length_cons] at hlt
      exact List.length_eq_zero.mp (by omega)
    subst hadded
    simp [merge_with_command, h0, hfind, hparse, hsel]

/-- Witness for C6 at concrete registries of sizes 0, 1 and 2. -/
theorem C6_merge_cardinality_guard_witness :
    merge_command ⟨[], none⟩ true none [] 1 =
      (⟨[], none⟩, [.reply uploadBeforeMergingMsg])
    ∧ merge_command ⟨[samplePdf 1], none⟩ true none [] 1 =
      (⟨[samplePdf 1], none⟩, [.reply needTwoFilesMsg])
    ∧ merge_command ⟨[samplePdf 1, samplePdf 2], none⟩ true none ["2"] 1 =
      (⟨[samplePdf 1, samplePdf 2], none⟩, [.reply needTwoFilesMsg])
    ∧ merge_with_command ⟨[samplePdf 1], none⟩ (some 1) ["1"] 1 =
      (⟨[samplePdf 1], none⟩, [.reply needTwoMergeWithMsg]) :=
  ⟨C6_merge_cardinality_guard.1 ⟨[], none⟩ none [] 1 rfl,
   C6_merge_cardinality_guard.2.1 ⟨[samplePdf 1], none⟩ none 1
     (by rfl) (by rfl),
   C6_merge_cardinality_guard.2.2.1 ⟨[samplePdf 1, samplePdf 2], none⟩ none
     "2" [] 1 [2] [samplePdf 2] (by rfl) (by decide) (by rfl)
     (by rfl) (by decide),
   C6_merge_cardinality_guard.2.2.2 ⟨[samplePdf 1], none⟩ (some 1) "1" [] 1
     (samplePdf 1) [1] [] (by rfl) (by rfl) (by rfl) (by decide)⟩

/-- C7 counterexample: `/split 5 3` against a one-file registry carries
the out-of-range index 5, yet the whole reply — the only event — is the
fixed text "❌ Invalid file number. Use /list to see your files.", which
does not contain the character `5` at all, so it does not name the
offending index as the claim requires. -/
theorem C7_counterexample_split_does_not_name_index :
    split_command ⟨[samplePdf 1], none⟩ none ["5", "3"] 1 =
      (⟨[samplePdf 1], none⟩, [.reply invalidFileNumberMsg])
    ∧ ¬(1 ≤ (5 : Int) ∧ (5 : Int) ≤
        (([samplePdf 1] : List FileEntry).length : Int))
    ∧ invalidFileNumberMsg.data.contains '5' = false := by
  refine ⟨by decide, by decide, by decide⟩

/-- C7 amended: a command carrying a 1-based file index outside
`1..len(files)` always aborts with an error reply as the only event and
the registry unchanged — no conversion, no partial execution; /merge and
/merge_with name the offending index in the reply ("❌ File #… doesn\x27t
exist…"), while /split replies with a generic invalid-file-number message
that does not name it. -/
theorem C7_amended_index_validation :
    (∀ files nums n, selectByIndices files nums = .error n →
      ¬(1 ≤ n ∧ n ≤ (files.length : Int)))
    ∧ (∀ n : Int, ∃ pre post, fileNotExistMsg n = pre ++ toString n ++ post)
    ∧ (∀ st replyDoc arg0 rest m nums n,
      find_replied_pdf st.files replyDoc = none →
      st.files ≠ [] →
      parseIndices arg0 = .ok nums →
      selectByIndices st.files nums = .error n →
      merge_command st true replyDoc (arg0 :: rest) m =
        (st, [.reply (fileNotExistMsg n)]))
    ∧ (∀ files replied nums n,
      mergeWithSelect files replied nums = .error (.badIndex n) →
      ¬(1 ≤ n ∧ n ≤ (files.length : Int)))
    ∧ (∀ st replyDoc arg0 rest m replied nums n,
      find_replied_pdf st.files replyDoc = some replied →
      parseIndices arg0 = .ok nums →
      mergeWithSelect st.files replied nums = .error (.badIndex n) →
      merge_with_command st replyDoc (arg0 :: rest) m =
        (st, [.reply (fileNotExistMsg n)]))
    ∧ (∀ st replyDoc a0 a1 rest m fn,
      find_replied_pdf st.files replyDoc = none →
      st.files ≠ [] →
      pyInt a0 = some fn →
      (fn < 1 ∨ (st.files.length : Int) < fn) →
      split_command st replyDoc (a0 :: a1 :: rest) m =
        (st, [.reply invalidFileNumberMsg])) := by
  refine ⟨?_, ?_, ?_, ?_, ?_, ?_⟩
  · intro files nums
    induction nums with
    | nil => intro n h; simp [selectByIndices] at h
    | cons a rest ih =>
      intro n h
      unfold selectByIndices at h
      by_cases hb : 1 ≤ a ∧ a ≤ (files.length : Int)
      · rw [dif_pos hb] at h
        cases hsel : selectByIndices files rest with
        | ok sel => rw [hsel] at h; simp at h
        | error mm =>
          rw [hsel] at h
          simp only [Except.error.injEq] at h
          subst h
          exact ih mm hsel
      · rw [dif_neg hb] at h
        simp only [Except.error.injEq] at h
        subst h
        exact hb
  · intro n
    exact ⟨"❌ File #", " doesn\x27t exist. Use /list to see available files.",
      rfl⟩
  · intro st replyDoc arg0 rest m nums n hfind hne hparse hsel
    have h0 : (st.files.length == 0) = false := by
      cases hf : st.files with
      | nil => exact absurd hf hne
      | cons a l => rfl
    simp [merge_command, h0, hfind, hparse, hsel]
  · intro files replied nums
    induction nums with
    | nil => intro n h; simp [mergeWithSelect] at h
    | cons a rest ih =>
      intro n h
      unfold mergeWithSelect at h
      by_cases hb : 1 ≤ a ∧ a ≤ (files.length : Int)
      · rw [dif_pos hb] at h
        dsimp only at h
        rcases hma : (files.get ⟨(a - 1).toNat, by omega⟩).message_id with - | x
        · rw [hma] at h
          simp at h
        · rw [hma] at h
          rcases hmb : replied.message_id with - | y
          · rw [hmb] at h
            simp at h
          · rw [hmb] at h
            cases hsel : mergeWithSelect files replied rest with
            | ok sel => rw [hsel] at h; simp at h
            | error err =>
              rw [hsel] at h
              simp only [Except.error.injEq] at h
              subst h
              exact ih n hsel
      · rw [dif_neg hb] at h
        simp only [Except.error.injEq, SelFailure.badIndex.injEq] at h
        subst h
        exact hb
  · intro st replyDoc arg0 rest m replied nums n hfind hparse hsel
    have hne := files_ne_nil_of_find hfind
    have h0 : (st.files.length == 0) = false := by
      cases hf : st.files with
      | nil => exact absurd hf hne
      | cons a l => rfl
    simp [merge_with_command, h0, hfind, hparse, hsel]
  · intro st replyDoc a0 a1 rest m fn hfind hne hpy hrange
    have h0 : (st.files.length == 0) = false := by
      cases hf : st.files with
      | nil => exact absurd hf hne
      | cons a l => rfl
    simp only [split_command, h0, hfind, hpy, Bool.false_eq_true, if_false,
      List.headD_cons, List.length_cons]
    rw [if_neg (by omega : ¬((rest.length + 1 + 1) < 2)), dif_pos hrange]

/-- Witness for C7's amended statement at concrete out-of-range indices. -/
theorem C7_amended_index_validation_witness :
    merge_command ⟨[samplePdf 1, samplePdf 2], none⟩ true none ["7"] 1 =
      (⟨[samplePdf 1, samplePdf 2], none⟩, [.reply (fileNotExistMsg 7)])
    ∧ ¬(1 ≤ (7 : Int) ∧ (7 : Int) ≤
        (([samplePdf 1, samplePdf 2] : List FileEntry).length : Int))
    ∧ (∃ pre post, fileNotExistMsg 7 = pre ++ toString (7 : Int) ++ post)
    ∧ merge_with_command ⟨[samplePdf 1, samplePdf 2], none⟩ (some 1) ["9"] 1 =
      (⟨[samplePdf 1, samplePdf 2], none⟩, [.reply (fileNotExistMsg 9)])
    ∧ split_command ⟨[samplePdf 1], none⟩ none ["6", "2"] 1 =
      (⟨[samplePdf 1], none⟩, [.reply invalidFileNumberMsg]) :=
  ⟨C7_amended_index_validation.2.2.1 ⟨[samplePdf 1, samplePdf 2], none⟩ none
     "7" [] 1 [7] 7 (by rfl) (by decide) (by rfl) (by rfl),
   C7_amended_index_validation.1 [samplePdf 1, samplePdf 2] [7] 7 (by rfl),
   C7_amended_index_validation.2.1 7,
   C7_amended_index_validation.2.2.2.2.1 ⟨[samplePdf 1, samplePdf 2], none⟩
     (some 1) "9" [] 1 (samplePdf 1) [9] 9 (by rfl) (by rfl) (by rfl),
   C7_amended_index_validation.2.2.2.2.2 ⟨[samplePdf 1], none⟩ none
     "6" "2" [] 1 6 (by rfl) (by decide) (by rfl) (by decide)⟩

/-- C8: with a PendingOperation present, a filename message delivers the
result (a `sendDocument` of the finalized name), appends exactly one new
FileEntry whose origin message id is the id the transport assigned to the
delivery, and clears the pending slot; `/cancel` instead delivers under
the default name `document.<ext>` with the same bookkeeping; with no
PendingOperation, both paths reply with their no-pending error and leave
the state untouched. -/
theorem C8_filename_negotiation :
    (∀ st info text mid, st.pending = some info →
      (handle_filename_input st text (.ok mid)).1.files =
        st.files ++
          [{ name := finalFilename info.file_type (sanitizedBaseName text),
             path := "tmp/" ++ finalFilename info.file_type (sanitizedBaseName text),
             message_id := some mid }]
      ∧ (handle_filename_input st text (.ok mid)).1.pending = none
      ∧ (Event.sendDocument (finalFilename info.file_type (sanitizedBaseName text))
           (sentCaption (finalFilename info.file_type (sanitizedBaseName text))
             info.operation_info))
          ∈ (handle_filename_input st text (.ok mid)).2)
    ∧ (∀ st info mid, st.pending = some info →
      (cancel_rename st (.ok mid)).1.files =
        st.files ++
          [{ name := "document." ++ extOf info.file_type,
             path := "tmp/" ++ ("document." ++ extOf info.file_type),
             message_id := some mid }]
      ∧ (cancel_rename st (.ok mid)).1.pending = none
      ∧ (Event.sendDocument ("document." ++ extOf info.file_type)
           (sentCaption ("document." ++ extOf info.file_type)
             info.operation_info))
          ∈ (cancel_rename st (.ok mid)).2)
    ∧ (∀ st text r, st.pending = none →
      handle_filename_input st text r =
        (st, [.reply "⚡ Processing...", .reply noPendingRenameMsg]))
    ∧ (∀ st r, st.pending = none →
      cancel_rename st r = (st, [.reply noPendingCancelMsg])) := by
  refine ⟨?_, ?_, ?_, ?_⟩
  · intro st info text mid h
    obtain ⟨files, pd⟩ := st
    simp only at h
    subst h
    exact ⟨rfl, rfl, by simp [handle_filename_input]⟩
  · intro st info mid h
    obtain ⟨files, pd⟩ := st
    simp only at h
    subst h
    exact ⟨rfl, rfl, by simp [cancel_rename]⟩
  · intro st text r h
    obtain ⟨files, pd⟩ := st
    simp only at h
    subst h
    rfl
  · intro st r h
    obtain ⟨files, pd⟩ := st
    simp only at h
    subst h
    rfl

/-- Witness for C8 at concrete pending and no-pending states. -/
theorem C8_filename_negotiation_witness :
    ((handle_filename_input ⟨[], some ⟨"fp", "pdf", "op", 5⟩⟩ "nm" (.ok 42)).1.files =
        [] ++
          [{ name := finalFilename "pdf" (sanitizedBaseName "nm"),
             path := "tmp/" ++ finalFilename "pdf" (sanitizedBaseName "nm"),
             message_id := some 42 }]
      ∧ (handle_filename_input ⟨[], some ⟨"fp", "pdf", "op", 5⟩⟩ "nm" (.ok 42)).1.pending = none
      ∧ (Event.sendDocument (finalFilename "pdf" (sanitizedBaseName "nm"))
           (sentCaption (finalFilename "pdf" (sanitizedBaseName "nm")) "op"))
          ∈ (handle_filename_input ⟨[], some ⟨"fp", "pdf", "op", 5⟩⟩ "nm" (.ok 42)).2)
    ∧ ((cancel_rename ⟨[], some ⟨"fp", "zip", "op", 6⟩⟩ (.ok 43)).1.files =
        [] ++
          [{ name := "document." ++ extOf "zip",
             path := "tmp/" ++ ("document." ++ extOf "zip"),
             message_id := some 43 }]
      ∧ (cancel_rename ⟨[], some ⟨"fp", "zip", "op", 6⟩⟩ (.ok 43)).1.pending = none
      ∧ (Event.sendDocument ("document." ++ extOf "zip")
           (sentCaption ("document." ++ extOf "zip") "op"))
          ∈ (cancel_rename ⟨[], some ⟨"fp", "zip", "op", 6⟩⟩ (.ok 43)).2)
    ∧ handle_filename_input ⟨[], none⟩ "x" (.ok 1) =
        (⟨[], none⟩, [.reply "⚡ Processing...", .reply noPendingRenameMsg])
    ∧ cancel_rename ⟨[], none⟩ (.ok 1) = (⟨[], none⟩, [.reply noPendingCancelMsg]) :=
  ⟨C8_filename_negotiation.1 ⟨[], some ⟨"fp", "pdf", "op", 5⟩⟩
     ⟨"fp", "pdf", "op", 5⟩ "nm" 42 rfl,
   C8_filename_negotiation.2.1 ⟨[], some ⟨"fp", "zip", "op", 6⟩⟩
     ⟨"fp", "zip", "op", 6⟩ 43 rfl,
   C8_filename_negotiation.2.2.1 ⟨[], none⟩ "x" (.ok 1) rfl,
   C8_filename_negotiation.2.2.2 ⟨[], none⟩ (.ok 1) rfl⟩

/-- C9: the pending store holds at most one entry per user by construction
(`pending : Option PendingFile` mirrors the single dict slot
`pending_files[user_id]`), and `ask_for_filename` — the one place every
completed operation stores its result — assigns that slot unconditionally:
whatever was pending before (in particular some earlier completed
operation), the slot afterwards holds exactly the new record, the earlier
one being overwritten, never queued; the registry is untouched. -/
theorem C9_single_pending_slot :
    (∀ st fp ft oi m,
      (ask_for_filename st fp ft oi m).1.pending = some ⟨fp, ft, oi, m⟩
      ∧ (ask_for_filename st fp ft oi m).1.files = st.files
      ∧ (ask_for_filename st fp ft oi m).2 = [.reply (askFilenamePrompt oi ft)])
    ∧ (∀ st old fp ft oi m, st.pending = some old →
      (ask_for_filename st fp ft oi m).1.pending = some ⟨fp, ft, oi, m⟩) :=
  ⟨fun _ _ _ _ _ => ⟨rfl, rfl, rfl⟩, fun _ _ _ _ _ _ _ => rfl⟩

/-- Witness for C9: overwriting a concrete already-pending slot. -/
theorem C9_single_pending_slot_witness :
    (ask_for_filename ⟨[], some ⟨"old", "pdf", "o", 1⟩⟩ "np" "zip" "i" 2).1.pending =
      some ⟨"np", "zip", "i", 2⟩ :=
  C9_single_pending_slot.2 ⟨[], some ⟨"old", "pdf", "o", 1⟩⟩
    ⟨"old", "pdf", "o", 1⟩ "np" "zip" "i" 2 rfl

/-- C10: records appended by image uploads carry no `message_id` key, and
`find_replied_pdf` only ever returns a record whose stored `message_id`
equals the replied-to id — so reply lookup can resolve to an uploaded PDF
or a delivered result but never to an image upload. -/
theorem C10_reply_lookup_never_image :
    (∀ st mime fn sz e,
      e ∈ (handle_image_document st mime fn sz).1.files →
      e ∈ st.files ∨ e.message_id = none)
    ∧ (∀ files rid e, find_replied_pdf files (some rid) = some e →
      e.message_id = some rid) := by
  constructor
  · intro st mime fn sz e h
    unfold handle_image_document at h
    dsimp only at h
    split at h
    · exact .inl h
    · split at h
      · exact .inl h
      · split at h
        all_goals
          rcases List.mem_append.mp h with h1 | h1
          · exact .inl h1
          · right
            rw [List.mem_singleton.mp h1]
  · intro files rid e h
    unfold find_replied_pdf at h
    have hpred := List.find?_some h
    exact eq_of_beq hpred

/-- Witness for C10: the concrete image upload's record, and a concrete
reply lookup resolving to the PDF record bearing the replied-to id. -/
theorem C10_reply_lookup_never_image_witness :
    (sampleImg ∈ ([] : List FileEntry) ∨ sampleImg.message_id = none)
    ∧ (samplePdf 1).message_id = some 1 :=
  ⟨C10_reply_lookup_never_image.1 ⟨[], none⟩ (some "image/png") "i.png" 1000
     sampleImg
     (by
       rw [show (handle_image_document ⟨[], none⟩ (some "image/png") "i.png"
             1000).1.files = [sampleImg] from by decide]
       exact List.mem_singleton.mpr rfl),
   C10_reply_lookup_never_image.2 [samplePdf 1, sampleImg] 1 (samplePdf 1)
     (by rfl)⟩

end PageCraft
